import Mathlib

/-!
Shallow embedding of the SkiFree core (the `Animation` frame-sequence player
and the `Skier` state machine) together with proofs of the specification
claims about it.

The `Animation` class is embedded from `src/Core/Animation.ts`; the `Skier`
class from `src/Entities/Skier.ts`.  External sinks (`getCurrentImage`,
`callback`) are modelled as an event log emitted by each animation step.
Collaborators that are not part of the core sources (`Constants`,
`ImageManager`, `ObstacleManager`, `Utils.intersectTwoRects`) are modelled
from the specification, as noted on each definition.
-/

namespace SkiFree

/-- Modelled from the spec: the sprite identifier enumeration `IMAGE_NAMES`
from `Constants` (not among the core sources).  It contains the skier
directional sprites, the crash sprite, the five jump-sequence sprites, and
the obstacle sprites: the jump ramp, the two rock variants, and further
obstacle types (trees) covered by the default collision branch. -/
inductive IMAGE_NAMES where
  | SKIER_CRASH
  | SKIER_LEFT
  | SKIER_LEFTDOWN
  | SKIER_DOWN
  | SKIER_RIGHTDOWN
  | SKIER_RIGHT
  | SKIER_JUMP1
  | SKIER_JUMP2
  | SKIER_JUMP3
  | SKIER_JUMP4
  | SKIER_JUMP5
  | TREE
  | TREE_CLUSTER
  | ROCK1
  | ROCK2
  | JUMP_RAMP
  deriving DecidableEq

/-- Modelled from the spec: the fixed frame interval constant
`ANIMATION_FRAME_SPEED_MS` from `Constants` (not among the core sources).
The spec fixes only that it is "a fixed frame interval constant"; the
animation scenario of §8 and the repository test drive it at 300ms. -/
def ANIMATION_FRAME_SPEED_MS : Int := 300

/-- An observable effect of an animation step: either the frame sink
`getCurrentImage` is invoked with an image (`none` models the JavaScript
`undefined` for an out-of-range index), or the completion `callback` is
invoked. -/
inductive AnimEvent where
  | frame (img : Option IMAGE_NAMES)
  | complete
  deriving DecidableEq

/-- State of an `Animation` object (`src/Core/Animation.ts`).  The two
function-valued fields are externalized: `getCurrentImage` is always present
in the source, so only the presence of the optional `callback` is recorded. -/
structure AnimState where
  images : List IMAGE_NAMES
  looping : Bool
  hasCallback : Bool
  currentAnimationFrame : Nat
  animationFrameTime : Int
  deriving DecidableEq

namespace AnimState

/-- Constructor of `Animation`: frame index 0, reference time the
construction timestamp `t0` (`Date.now()` in the source). -/
def mk0 (images : List IMAGE_NAMES) (looping : Bool) (hasCallback : Bool)
    (t0 : Int) : AnimState :=
  { images := images, looping := looping, hasCallback := hasCallback,
    currentAnimationFrame := 0, animationFrameTime := t0 }

/-- The function `Animation.finishAnimation`: reset the frame index to 0, then invoke the
completion callback if present. -/
def finishAnimation (a : AnimState) : AnimState × List AnimEvent :=
  ({ a with currentAnimationFrame := 0 },
   if a.hasCallback then [AnimEvent.complete] else [])

/-- The function `Animation.nextAnimationFrame`: record the call time, increment the frame
index; if the incremented index reaches the sequence length, finish (when not
looping) or wrap to 0 and fall through to the sink (when looping); otherwise
invoke the sink with the newly selected frame. -/
def nextAnimationFrame (t : Int) (a : AnimState) : AnimState × List AnimEvent :=
  let a1 := { a with animationFrameTime := t,
                     currentAnimationFrame := a.currentAnimationFrame + 1 }
  if a1.currentAnimationFrame ≥ a1.images.length then
    if !a1.looping then
      finishAnimation a1
    else
      let a2 := { a1 with currentAnimationFrame := 0 }
      (a2, [AnimEvent.frame (a2.images.get? a2.currentAnimationFrame)])
  else
    (a1, [AnimEvent.frame (a1.images.get? a1.currentAnimationFrame)])

/-- The function `Animation.animate`: advance one frame when the elapsed time since the
last advance strictly exceeds the frame interval; otherwise do nothing. -/
def animate (t : Int) (a : AnimState) : AnimState × List AnimEvent :=
  if t - a.animationFrameTime > ANIMATION_FRAME_SPEED_MS then
    nextAnimationFrame t a
  else
    (a, [])

/-- The function `Animation.reset`: set the frame index to 0 without invoking anything. -/
def reset (a : AnimState) : AnimState :=
  { a with currentAnimationFrame := 0 }

/-- Run `animate` at each of a list of call times in order, concatenating the
emitted events. -/
def animateRun (a : AnimState) : List Int → AnimState × List AnimEvent
  | [] => (a, [])
  | t :: ts =>
    let p := animate t a
    let q := animateRun p.1 ts
    (q.1, p.2 ++ q.2)

end AnimState

/-- Modelled from the spec: the input key identifiers from `Constants` (not
among the core sources): "a fixed enumerated set {Left, Right, Up, Down,
Space, plus unrecognized}".  `OTHER` stands for any unrecognized key. -/
inductive KEYS where
  | LEFT
  | RIGHT
  | UP
  | DOWN
  | SPACEBAR
  | OTHER
  deriving DecidableEq

/-- The possible skier states (`STATES` in `src/Entities/Skier.ts`). -/
inductive STATES where
  | STATE_SKIING
  | STATE_JUMPING
  | STATE_CRASHED
  | STATE_DEAD
  deriving DecidableEq

/-- The skier starts running at this speed (`STARTING_SPEED`). -/
def STARTING_SPEED : Rat := 10

/-- Modelled from the spec: `DIAGONAL_SPEED_REDUCER` from `Constants` (not
among the core sources), "a fixed constant approximating √2, to equalize
diagonal travel speed with straight-line speed". -/
def DIAGONAL_SPEED_REDUCER : Rat := 14142 / 10000

/-- The skier direction constants. -/
def DIRECTION_LEFT : Int := 0

/-- Direction constant: diagonally left and down. -/
def DIRECTION_LEFT_DOWN : Int := 1

/-- Direction constant: straight down. -/
def DIRECTION_DOWN : Int := 2

/-- Direction constant: diagonally right and down. -/
def DIRECTION_RIGHT_DOWN : Int := 3

/-- Direction constant: fully right. -/
def DIRECTION_RIGHT : Int := 4

/-- Mapping of the image to display for the skier based upon which direction
they are facing (`DIRECTION_IMAGES`).  A JavaScript object lookup outside
the keyed range yields `undefined`, modelled by `none`. -/
def DIRECTION_IMAGES (d : Int) : Option IMAGE_NAMES :=
  if d = DIRECTION_LEFT then some IMAGE_NAMES.SKIER_LEFT
  else if d = DIRECTION_LEFT_DOWN then some IMAGE_NAMES.SKIER_LEFTDOWN
  else if d = DIRECTION_DOWN then some IMAGE_NAMES.SKIER_DOWN
  else if d = DIRECTION_RIGHT_DOWN then some IMAGE_NAMES.SKIER_RIGHTDOWN
  else if d = DIRECTION_RIGHT then some IMAGE_NAMES.SKIER_RIGHT
  else none

/-- The jump sprite sequence (`IMAGES_JUMPING`). -/
def IMAGES_JUMPING : List IMAGE_NAMES :=
  [IMAGE_NAMES.SKIER_JUMP1, IMAGE_NAMES.SKIER_JUMP2, IMAGE_NAMES.SKIER_JUMP3,
   IMAGE_NAMES.SKIER_JUMP4, IMAGE_NAMES.SKIER_JUMP5]

/-- A world-coordinate position (owned by the `Entity` base class). -/
structure Position where
  x : Rat
  y : Rat
  deriving DecidableEq

/-- An axis-aligned rectangle (`Rect` from `Core/Utils`), by its left/top and
right/bottom corners, matching the argument order of the `Rect` constructor
calls in the source. -/
structure Rect where
  left : Rat
  top : Rat
  right : Rat
  bottom : Rat
  deriving DecidableEq

/-- Modelled from the spec: sized image data returned by the image resolver
("given a sprite identifier, returns sized image data or an absence
signal"). -/
structure Image where
  width : Rat
  height : Rat
  deriving DecidableEq

/-- Modelled from the spec: an obstacle exposes "a bounding box (or absence)
and a type identifier" (its sprite `imageName`). -/
structure Obstacle where
  imageName : IMAGE_NAMES
  bounds : Option Rect
  deriving DecidableEq

/-- The function `Obstacle.getBounds`, possibly absent. -/
def Obstacle.getBounds (o : Obstacle) : Option Rect :=
  o.bounds

/-- Modelled from the spec: the rectangle intersection primitive
`intersectTwoRects` from `Core/Utils` (not among the core sources): "given
two axis-aligned boxes, returns whether they overlap". -/
def intersectTwoRects (r1 r2 : Rect) : Bool :=
  r1.left ≤ r2.right && r2.left ≤ r1.right &&
    r1.top ≤ r2.bottom && r2.top ≤ r1.bottom

/-- The external collaborators the skier consumes: the image resolver
(`ImageManager.getImage`) and the obstacle collection
(`ObstacleManager.getObstacles`), both read-only. -/
structure Env where
  getImage : IMAGE_NAMES → Option Image
  obstacles : List Obstacle

/-- State of a `Skier` object (`src/Entities/Skier.ts`): the current sprite
identifier (`none` models `undefined`), the state-machine state, the facing
direction, the current speed, the world position from the `Entity` base, and
the owned jump `Animation`. -/
structure SkierState where
  imageName : Option IMAGE_NAMES
  state : STATES
  direction : Int
  speed : Rat
  position : Position
  jumpAnimation : AnimState
  deriving DecidableEq

namespace SkierState

/-- The `Skier` constructor with initial position `(x, y)`; `t0` is the
construction timestamp captured by the owned jump `Animation`.  The
animation is configured with the jump sequence, non-looping, frame sink
`setImageName` and completion callback `land`. -/
def mk0 (x y : Rat) (t0 : Int) : SkierState :=
  { imageName := some IMAGE_NAMES.SKIER_DOWN,
    state := STATES.STATE_SKIING,
    direction := DIRECTION_DOWN,
    speed := STARTING_SPEED,
    position := { x := x, y := y },
    jumpAnimation := AnimState.mk0 IMAGES_JUMPING false true t0 }

/-- The function `Skier.isCrashed`. -/
def isCrashed (s : SkierState) : Bool :=
  s.state = STATES.STATE_CRASHED

/-- The function `Skier.isMoving`: the state is Skiing or Jumping. -/
def isMoving (s : SkierState) : Bool :=
  s.state = STATES.STATE_SKIING || s.state = STATES.STATE_JUMPING

/-- The function `Skier.isJumping`. -/
def isJumping (s : SkierState) : Bool :=
  s.state = STATES.STATE_JUMPING

/-- The function `Skier.isDead`. -/
def isDead (s : SkierState) : Bool :=
  s.state = STATES.STATE_DEAD

/-- The function `Skier.setImageName` (the jump animation's frame sink). -/
def setImageName (img : Option IMAGE_NAMES) (s : SkierState) : SkierState :=
  { s with imageName := img }

/-- The function `Skier.setDirectionalImage`. -/
def setDirectionalImage (s : SkierState) : SkierState :=
  { s with imageName := DIRECTION_IMAGES s.direction }

/-- The function `Skier.setDirection`: set the direction and update the image. -/
def setDirection (d : Int) (s : SkierState) : SkierState :=
  setDirectionalImage { s with direction := d }

/-- The function `Skier.moveSkierLeft`. -/
def moveSkierLeft (s : SkierState) : SkierState :=
  { s with position := { s.position with x := s.position.x - STARTING_SPEED } }

/-- The function `Skier.moveSkierLeftDown`. -/
def moveSkierLeftDown (s : SkierState) : SkierState :=
  { s with position :=
      { x := s.position.x - s.speed / DIAGONAL_SPEED_REDUCER,
        y := s.position.y + s.speed / DIAGONAL_SPEED_REDUCER } }

/-- The function `Skier.moveSkierDown`. -/
def moveSkierDown (s : SkierState) : SkierState :=
  { s with position := { s.position with y := s.position.y + s.speed } }

/-- The function `Skier.moveSkierRightDown`. -/
def moveSkierRightDown (s : SkierState) : SkierState :=
  { s with position :=
      { x := s.position.x + s.speed / DIAGONAL_SPEED_REDUCER,
        y := s.position.y + s.speed / DIAGONAL_SPEED_REDUCER } }

/-- The function `Skier.moveSkierRight`. -/
def moveSkierRight (s : SkierState) : SkierState :=
  { s with position := { s.position with x := s.position.x + STARTING_SPEED } }

/-- The function `Skier.moveSkierUp`. -/
def moveSkierUp (s : SkierState) : SkierState :=
  { s with position := { s.position with y := s.position.y - STARTING_SPEED } }

/-- The function `Skier.move`: frame-based movement dispatched on the direction; fully
horizontal directions (and any value outside the switch cases) move
nothing. -/
def move (s : SkierState) : SkierState :=
  if s.direction = DIRECTION_LEFT_DOWN then moveSkierLeftDown s
  else if s.direction = DIRECTION_DOWN then moveSkierDown s
  else if s.direction = DIRECTION_RIGHT_DOWN then moveSkierRightDown s
  else s

/-- The function `Skier.canNotJump`: already jumping, facing fully left or right, or
crashed. -/
def canNotJump (s : SkierState) : Bool :=
  isJumping s || (s.direction = DIRECTION_LEFT || s.direction = DIRECTION_RIGHT)
    || isCrashed s

/-- The function `Skier.jump`: no-op when `canNotJump`; otherwise set the state to
Jumping. -/
def jump (s : SkierState) : SkierState :=
  if canNotJump s then s else { s with state := STATES.STATE_JUMPING }

/-- The function `Skier.land` (the jump animation's completion callback): back to Skiing
with the directional image restored. -/
def land (s : SkierState) : SkierState :=
  setDirectionalImage { s with state := STATES.STATE_SKIING }

/-- The function `Skier.crash`: reset the jump animation if jumping, then set the state to
Crashed, the speed to 0 and the crash image. -/
def crash (s : SkierState) : SkierState :=
  let s1 := if isJumping s then { s with jumpAnimation := s.jumpAnimation.reset }
            else s
  { s1 with state := STATES.STATE_CRASHED, speed := 0,
            imageName := some IMAGE_NAMES.SKIER_CRASH }

/-- The function `Skier.recoverFromCrash`. -/
def recoverFromCrash (newDirection : Int) (s : SkierState) : SkierState :=
  setDirection newDirection
    { s with state := STATES.STATE_SKIING, speed := STARTING_SPEED }

/-- The function `Skier.die`. -/
def die (s : SkierState) : SkierState :=
  { s with state := STATES.STATE_DEAD, speed := 0 }

/-- The function `Skier.turnLeft`. -/
def turnLeft (s : SkierState) : SkierState :=
  let s1 := if isCrashed s then recoverFromCrash DIRECTION_LEFT s else s
  if s1.direction = DIRECTION_LEFT then moveSkierLeft s1
  else setDirection (s1.direction - 1) s1

/-- The function `Skier.turnRight`. -/
def turnRight (s : SkierState) : SkierState :=
  let s1 := if isCrashed s then recoverFromCrash DIRECTION_RIGHT s else s
  if s1.direction = DIRECTION_RIGHT then moveSkierRight s1
  else setDirection (s1.direction + 1) s1

/-- The function `Skier.turnUp`: nothing when crashed; move up only when facing fully left
or fully right. -/
def turnUp (s : SkierState) : SkierState :=
  if isCrashed s then s
  else if s.direction = DIRECTION_LEFT || s.direction = DIRECTION_RIGHT then
    moveSkierUp s
  else s

/-- The function `Skier.turnDown`: nothing when crashed; otherwise face straight down. -/
def turnDown (s : SkierState) : SkierState :=
  if isCrashed s then s else setDirection DIRECTION_DOWN s

/-- The function `Skier.handleInput`: ignored entirely (returning `false`) when dead or
jumping; otherwise dispatches on the key and reports whether it was
recognized. -/
def handleInput (inputKey : KEYS) (s : SkierState) : Bool × SkierState :=
  if isDead s || isJumping s then (false, s)
  else
    match inputKey with
    | KEYS.LEFT => (true, turnLeft s)
    | KEYS.RIGHT => (true, turnRight s)
    | KEYS.UP => (true, turnUp s)
    | KEYS.DOWN => (true, turnDown s)
    | KEYS.SPACEBAR => (true, jump s)
    | KEYS.OTHER => (false, s)

/-- The function `Skier.getBounds`: derived from the current sprite's dimensions with the
bottom edge raised to a quarter height; `none` when the sprite image is not
resolvable. -/
def getBounds (env : Env) (s : SkierState) : Option Rect :=
  match s.imageName with
  | none => none
  | some n =>
    match env.getImage n with
    | none => none
    | some image =>
      some { left := s.position.x - image.width / 2,
             top := s.position.y - image.height / 2,
             right := s.position.x + image.width / 2,
             bottom := s.position.y - image.height / 4 }

/-- The function `Skier.intersectionAction`: dispatch on the obstacle's sprite
identifier. -/
def intersectionAction (obstacle : Obstacle) (s : SkierState) : SkierState :=
  match obstacle.imageName with
  | IMAGE_NAMES.JUMP_RAMP => jump s
  | IMAGE_NAMES.ROCK1 => if isJumping s then s else crash s
  | IMAGE_NAMES.ROCK2 => if isJumping s then s else crash s
  | _ => crash s

/-- The intersection test `checkIntersection` runs per obstacle: obstacles
without bounds never intersect. -/
def obstacleIntersects (skierBounds : Rect) (o : Obstacle) : Bool :=
  match o.getBounds with
  | none => false
  | some obstacleBounds => intersectTwoRects skierBounds obstacleBounds

/-- The function `Skier.checkIntersection`: skipped when the skier has no bounds;
otherwise act on the first intersecting obstacle, if any. -/
def checkIntersection (env : Env) (s : SkierState) : SkierState :=
  match getBounds env s with
  | none => s
  | some skierBounds =>
    match env.obstacles.find? (obstacleIntersects skierBounds) with
    | none => s
    | some o => intersectionAction o s

/-- Application of one jump-animation event to the skier: the frame sink is
`setImageName` and the completion callback is `land`. -/
def applyAnimEvent (s : SkierState) : AnimEvent → SkierState
  | AnimEvent.frame img => setImageName img s
  | AnimEvent.complete => land s

/-- The function `this.jumpAnimation.animate(gameTime)` as seen from the skier: step the
owned animation and apply the emitted events back to the skier. -/
def animateJump (gameTime : Int) (s : SkierState) : SkierState :=
  let p := s.jumpAnimation.animate gameTime
  p.2.foldl applyAnimEvent { s with jumpAnimation := p.1 }

/-- The function `Skier.update`: only acts in a moving state; move, then check
intersection, then (if still jumping) advance the jump animation. -/
def update (env : Env) (gameTime : Int) (s : SkierState) : SkierState :=
  if isMoving s then
    let s1 := move s
    let s2 := checkIntersection env s1
    if isJumping s2 then animateJump gameTime s2 else s2
  else s

/-- One externally driven event: a key delivered to `handleInput` or a game
tick delivered to `update`. -/
inductive Event where
  | input (k : KEYS)
  | tick (gameTime : Int)

/-- Apply one external event to the skier. -/
def step (env : Env) (s : SkierState) : Event → SkierState
  | Event.input k => (handleInput k s).2
  | Event.tick t => update env t s

/-- Run a sequence of external events. -/
def run (env : Env) (s : SkierState) : List Event → SkierState
  | [] => s
  | e :: es => run env (step env s e) es

end SkierState

open IMAGE_NAMES

/-- Claim C1: the claim states that an `Animation` with a 2-element
non-looping sequence and a 300ms frame interval, driven by `animate` at
t+300, t+600, t+900 relative to the construction timestamp t, invokes the
frame sink exactly twice (once with each element in order) and the
completion callback exactly once.  The code does not: the strict `>` gate
rejects the calls at t+300 and t+900 (elapsed time exactly 300), and the
pre-delivery increment means the sink receives the second element.  The
actual trace is exactly one frame-sink invocation, with the second element,
and no completion callback. -/
theorem C1_animate_scenario_trace (t : Int) (i1 i2 : IMAGE_NAMES) :
    (AnimState.animateRun (AnimState.mk0 [i1, i2] false true t)
        [t + 300, t + 600, t + 900]).2 = [AnimEvent.frame (some i2)] := by
  simp only [AnimState.animateRun, AnimState.animate, AnimState.nextAnimationFrame,
    AnimState.finishAnimation, AnimState.mk0, ANIMATION_FRAME_SPEED_MS]
  norm_num

/-- Claim C2, counterexample: the claim asserts that across any sequence of
calls frame index 0 is never delivered to the frame sink.  For a looping
2-element animation `[SKIER_DOWN, SKIER_LEFT]` constructed at time 0 and
driven at times 301 and 602, the second advance wraps the index to 0 and
falls through to the sink, delivering `SKIER_DOWN` — the element at index
0. -/
theorem C2_looping_delivers_frame_zero :
    (AnimState.animateRun (AnimState.mk0 [SKIER_DOWN, SKIER_LEFT] true false 0)
        [301, 602]).2
      = [AnimEvent.frame (some SKIER_LEFT), AnimEvent.frame (some SKIER_DOWN)]
      ∧ [SKIER_DOWN, SKIER_LEFT].get? 0 = some SKIER_DOWN := by
  constructor
  · rfl
  · rfl

/-- Claim C2, amended: `nextAnimationFrame(gameTime)` records `gameTime` as
`animationFrameTime` and increments `currentAnimationFrame`.  If the
incremented index reaches or exceeds `images.length` then, when `looping` is
false, it resets the index to 0 and invokes the completion callback if
present, without invoking the frame sink on that call; when `looping` is
true it wraps the index to 0 and then invokes the frame sink with
`images[0]`.  Otherwise it invokes the frame sink with the newly selected
frame `images[currentAnimationFrame]`.  Hence on a non-looping animation
every frame delivered to the sink has index at least 1 and frame index 0 is
never delivered; a looping animation delivers frame index 0 on each wrap. -/
theorem C2_nextAnimationFrame_behaviour (t : Int) (a : AnimState) :
    ((a.nextAnimationFrame t).1.images = a.images ∧
     (a.nextAnimationFrame t).1.looping = a.looping ∧
     (a.nextAnimationFrame t).1.hasCallback = a.hasCallback ∧
     (a.nextAnimationFrame t).1.animationFrameTime = t) ∧
    (a.currentAnimationFrame + 1 ≥ a.images.length →
      (a.nextAnimationFrame t).1.currentAnimationFrame = 0 ∧
      (a.looping = false →
        (a.nextAnimationFrame t).2
          = (if a.hasCallback then [AnimEvent.complete] else [])) ∧
      (a.looping = true →
        (a.nextAnimationFrame t).2 = [AnimEvent.frame (a.images.get? 0)])) ∧
    (a.currentAnimationFrame + 1 < a.images.length →
      (a.nextAnimationFrame t).1.currentAnimationFrame
          = a.currentAnimationFrame + 1 ∧
      (a.nextAnimationFrame t).2
          = [AnimEvent.frame (a.images.get? (a.currentAnimationFrame + 1))]) ∧
    (a.looping = false →
      ∀ img, AnimEvent.frame img ∈ (a.nextAnimationFrame t).2 →
        ∃ k, 1 ≤ k ∧ img = a.images.get? k) := by
  simp only [AnimState.nextAnimationFrame, AnimState.finishAnimation]
  by_cases hlen : a.currentAnimationFrame + 1 ≥ a.images.length
  · cases hloop : a.looping with
    | false =>
      simp [hlen, hloop, Nat.not_lt_of_le hlen]
    | true =>
      simp [hlen, hloop, Nat.not_lt_of_le hlen]
  · have hlt : a.currentAnimationFrame + 1 < a.images.length := Nat.lt_of_not_le hlen
    simp [hlen, Nat.not_le.mpr hlt, hlt]
    intro _
    exact ⟨a.currentAnimationFrame + 1, Nat.le_add_left 1 _,
      (List.getElem?_eq_getElem hlt).symm⟩

/-- Claim C2, amended, witness: concrete instances of the three branches of
the characterization — a looping wrap delivering `images[0]`, a non-looping
finish invoking the completion callback only, and an in-bounds advance
delivering the incremented frame. -/
theorem C2_nextAnimationFrame_behaviour_witness :
    (AnimState.nextAnimationFrame 400
        ⟨[SKIER_DOWN, SKIER_LEFT], true, false, 1, 0⟩).2
      = [AnimEvent.frame (some SKIER_DOWN)] ∧
    (AnimState.nextAnimationFrame 400
        ⟨[SKIER_DOWN, SKIER_LEFT], false, true, 1, 0⟩).2
      = [AnimEvent.complete] ∧
    (AnimState.nextAnimationFrame 400
        ⟨[SKIER_DOWN, SKIER_LEFT], false, true, 0, 0⟩).2
      = [AnimEvent.frame (some SKIER_LEFT)] := by
  refine ⟨?_, ?_, ?_⟩
  · have h := ((C2_nextAnimationFrame_behaviour 400
      ⟨[SKIER_DOWN, SKIER_LEFT], true, false, 1, 0⟩).2.1 (by decide)).2.2 rfl
    simpa using h
  · have h := ((C2_nextAnimationFrame_behaviour 400
      ⟨[SKIER_DOWN, SKIER_LEFT], false, true, 1, 0⟩).2.1 (by decide)).2.1 rfl
    simpa using h
  · have h := ((C2_nextAnimationFrame_behaviour 400
      ⟨[SKIER_DOWN, SKIER_LEFT], false, true, 0, 0⟩).2.2.1 (by decide)).2
    simpa using h

/-- Claim C3: whenever the collision check finds an intersecting obstacle
(the first in the obstacle collection's order), the response depends only on
that obstacle's sprite identifier: a jump ramp triggers `jump`; either rock
variant triggers `crash` only when not jumping, so a rock hit while Jumping
leaves the skier unchanged and never Crashed; every other obstacle type
triggers `crash` unconditionally. -/
theorem C3_collision_dispatch (env : Env) (s : SkierState) (sb : Rect)
    (o : Obstacle)
    (hb : SkierState.getBounds env s = some sb)
    (hf : env.obstacles.find? (SkierState.obstacleIntersects sb) = some o) :
    SkierState.checkIntersection env s = SkierState.intersectionAction o s ∧
    (o.imageName = JUMP_RAMP →
      SkierState.checkIntersection env s = SkierState.jump s) ∧
    ((o.imageName = ROCK1 ∨ o.imageName = ROCK2) →
      (SkierState.isJumping s = true →
        SkierState.checkIntersection env s = s ∧
        (SkierState.checkIntersection env s).state ≠ STATES.STATE_CRASHED) ∧
      (SkierState.isJumping s = false →
        SkierState.checkIntersection env s = SkierState.crash s)) ∧
    (o.imageName ≠ JUMP_RAMP → o.imageName ≠ ROCK1 → o.imageName ≠ ROCK2 →
      SkierState.checkIntersection env s = SkierState.crash s) := by
  have hc : SkierState.checkIntersection env s = SkierState.intersectionAction o s := by
    unfold SkierState.checkIntersection
    simp only [hb, hf]
  refine ⟨hc, ?_, ?_, ?_⟩
  · intro h
    rw [hc]
    simp [SkierState.intersectionAction, h]
  · intro h
    constructor
    · intro hj
      have hstate : s.state = STATES.STATE_JUMPING := by
        simpa [SkierState.isJumping] using hj
      have heq : SkierState.checkIntersection env s = s := by
        rw [hc]
        rcases h with h | h <;> simp [SkierState.intersectionAction, h, hj]
      exact ⟨heq, by rw [heq, hstate]; intro hcontra; cases hcontra⟩
    · intro hj
      rw [hc]
      rcases h with h | h <;> simp [SkierState.intersectionAction, h, hj]
  · intro h1 h2 h3
    rw [hc]
    cases ho : o.imageName <;>
      simp [SkierState.intersectionAction, ho] <;> simp_all

/-- Claim C3, witness: a skier at the origin with a resolvable 10×8 sprite
intersects a tree obstacle, and the collision response is `crash`. -/
theorem C3_collision_dispatch_witness :
    SkierState.checkIntersection
        ⟨fun _ => some ⟨10, 8⟩, [⟨TREE, some ⟨-1, -4, 1, -3⟩⟩]⟩
        (SkierState.mk0 0 0 0)
      = SkierState.crash (SkierState.mk0 0 0 0) := by
  have hb : SkierState.getBounds
      ⟨fun _ => some ⟨10, 8⟩, [⟨TREE, some ⟨-1, -4, 1, -3⟩⟩]⟩
      (SkierState.mk0 0 0 0) = some ⟨-5, -4, 5, -2⟩ := by
    simp [SkierState.getBounds, SkierState.mk0]
    norm_num
  have hf : List.find? (SkierState.obstacleIntersects ⟨-5, -4, 5, -2⟩)
      [(⟨TREE, some ⟨-1, -4, 1, -3⟩⟩ : Obstacle)]
      = some ⟨TREE, some ⟨-1, -4, 1, -3⟩⟩ := by
    simp [List.find?, SkierState.obstacleIntersects, Obstacle.getBounds,
      intersectTwoRects]
    norm_num
  exact (C3_collision_dispatch _ _ _ _ hb hf).2.2.2
    (by decide) (by decide) (by decide)

/-- Claim C4: `die` puts the skier into the Dead state with speed 0, and Dead
is terminal — any subsequent sequence of `handleInput` and `update` calls
leaves the skier completely unchanged, with every `handleInput` returning
`false` without dispatching. -/
theorem C4_dead_is_terminal (env : Env) (s : SkierState)
    (evs : List SkierState.Event) :
    (SkierState.die s).state = STATES.STATE_DEAD ∧
    (SkierState.die s).speed = 0 ∧
    SkierState.run env (SkierState.die s) evs = SkierState.die s ∧
    (∀ k, SkierState.handleInput k (SkierState.die s) = (false, SkierState.die s)) ∧
    (∀ t, SkierState.update env t (SkierState.die s) = SkierState.die s) := by
  have hinput : ∀ k, SkierState.handleInput k (SkierState.die s)
      = (false, SkierState.die s) := by
    intro k
    simp [SkierState.handleInput, SkierState.isDead, SkierState.die]
  have hupdate : ∀ t, SkierState.update env t (SkierState.die s)
      = SkierState.die s := by
    intro t
    simp [SkierState.update, SkierState.isMoving, SkierState.die]
  have hstep : ∀ e, SkierState.step env (SkierState.die s) e
      = SkierState.die s := by
    intro e
    cases e with
    | input k => simp [SkierState.step, hinput]
    | tick t => simp [SkierState.step, hupdate]
  have hrun : ∀ l, SkierState.run env (SkierState.die s) l = SkierState.die s := by
    intro l
    induction l with
    | nil => rfl
    | cons e l2 ih => rw [SkierState.run, hstep]; exact ih
  exact ⟨rfl, rfl, hrun evs, hinput, hupdate⟩

/-- Claim C5: `handleInput` returns `false` with no state change whenever the
skier is Dead or Jumping; otherwise it returns `true` for every recognized
key (even when the dispatched action is a no-op) and `false` for an
unrecognized key. -/
theorem C5_handleInput_result (s : SkierState) (k : KEYS) :
    ((SkierState.isDead s || SkierState.isJumping s) = true →
      SkierState.handleInput k s = (false, s)) ∧
    ((SkierState.isDead s || SkierState.isJumping s) = false →
      (SkierState.handleInput k s).1 = (k != KEYS.OTHER)) := by
  constructor
  · intro h
    simp [SkierState.handleInput, h]
  · intro h
    cases k <;> simp [SkierState.handleInput, h]

/-- Claim C5, witness: a jumping skier ignores Left (returning `false` and
changing nothing); a freshly constructed skier reports Space as handled. -/
theorem C5_handleInput_result_witness :
    SkierState.handleInput KEYS.LEFT
        { SkierState.mk0 0 0 0 with state := STATES.STATE_JUMPING }
      = (false, { SkierState.mk0 0 0 0 with state := STATES.STATE_JUMPING }) ∧
    (SkierState.handleInput KEYS.SPACEBAR (SkierState.mk0 0 0 0)).1 = true := by
  constructor
  · exact (C5_handleInput_result
      { SkierState.mk0 0 0 0 with state := STATES.STATE_JUMPING } KEYS.LEFT).1
      (by decide)
  · have h := (C5_handleInput_result (SkierState.mk0 0 0 0) KEYS.SPACEBAR).2
      (by decide)
    simpa using h

/-- Claim C6: if the skier is Crashed, `turnLeft` first recovers (Skiing,
starting speed, direction fully Left with matching sprite) and then, the
direction now being fully Left, also shifts the world x-position left by the
starting speed; if not Crashed and not already fully Left, the direction
decrements by one step with the sprite updated, everything else unchanged. -/
theorem C6_turnLeft_behaviour (s : SkierState) :
    (s.state = STATES.STATE_CRASHED →
      SkierState.turnLeft s
          = SkierState.moveSkierLeft
              (SkierState.recoverFromCrash DIRECTION_LEFT s) ∧
      (SkierState.turnLeft s).state = STATES.STATE_SKIING ∧
      (SkierState.turnLeft s).speed = STARTING_SPEED ∧
      (SkierState.turnLeft s).direction = DIRECTION_LEFT ∧
      (SkierState.turnLeft s).imageName = some SKIER_LEFT ∧
      (SkierState.turnLeft s).position.x = s.position.x - STARTING_SPEED ∧
      (SkierState.turnLeft s).position.y = s.position.y) ∧
    (s.state ≠ STATES.STATE_CRASHED → s.direction ≠ DIRECTION_LEFT →
      (SkierState.turnLeft s).direction = s.direction - 1 ∧
      (SkierState.turnLeft s).imageName = DIRECTION_IMAGES (s.direction - 1) ∧
      (SkierState.turnLeft s).position = s.position ∧
      (SkierState.turnLeft s).state = s.state ∧
      (SkierState.turnLeft s).speed = s.speed) := by
  constructor
  · intro h
    simp [SkierState.turnLeft, SkierState.isCrashed, h,
      SkierState.recoverFromCrash, SkierState.setDirection,
      SkierState.setDirectionalImage, SkierState.moveSkierLeft,
      DIRECTION_IMAGES, DIRECTION_LEFT]
  · intro h1 h2
    simp [SkierState.turnLeft, SkierState.isCrashed, h1, h2,
      SkierState.setDirection, SkierState.setDirectionalImage]

/-- Claim C6, witness: a crashed skier turning left recovers and creeps left;
a skiing skier facing down turns one step toward the left. -/
theorem C6_turnLeft_behaviour_witness :
    (SkierState.turnLeft { SkierState.mk0 0 0 0 with state := STATES.STATE_CRASHED }).state
        = STATES.STATE_SKIING ∧
    (SkierState.turnLeft { SkierState.mk0 0 0 0 with state := STATES.STATE_CRASHED }).direction
        = DIRECTION_LEFT ∧
    (SkierState.turnLeft { SkierState.mk0 0 0 0 with state := STATES.STATE_CRASHED }).position.x
        = ({ SkierState.mk0 0 0 0 with
              state := STATES.STATE_CRASHED } : SkierState).position.x
            - STARTING_SPEED ∧
    (SkierState.turnLeft (SkierState.mk0 0 0 0)).direction
        = (SkierState.mk0 0 0 0).direction - 1 := by
  have h1 := (C6_turnLeft_behaviour
    { SkierState.mk0 0 0 0 with state := STATES.STATE_CRASHED }).1 rfl
  have h2 := (C6_turnLeft_behaviour (SkierState.mk0 0 0 0)).2
    (by decide) (by decide)
  exact ⟨h1.2.1, h1.2.2.2.1, h1.2.2.2.2.2.1, h2.1⟩

namespace SkierState

/-- The function `jump` never changes the position. -/
theorem jump_position (s : SkierState) : (jump s).position = s.position := by
  unfold jump
  split <;> rfl

/-- The function `crash` never changes the position. -/
theorem crash_position (s : SkierState) : (crash s).position = s.position := by
  unfold crash
  by_cases h : isJumping s <;> simp [h]

/-- The function `intersectionAction` never changes the position. -/
theorem intersectionAction_position (o : Obstacle) (s : SkierState) :
    (intersectionAction o s).position = s.position := by
  cases ho : o.imageName <;>
    simp [intersectionAction, ho, jump_position, crash_position] <;>
    split <;> simp [crash_position]

/-- The function `checkIntersection` never changes the position. -/
theorem checkIntersection_position (env : Env) (s : SkierState) :
    (checkIntersection env s).position = s.position := by
  unfold checkIntersection
  rcases hb : getBounds env s with _ | sb
  · simp only [hb]
  · simp only [hb]
    rcases hf : env.obstacles.find? (obstacleIntersects sb) with _ | o
    · simp only [hf]
    · simp only [hf, intersectionAction_position]

/-- Applying a jump-animation event never changes the position. -/
theorem applyAnimEvent_position (s : SkierState) (e : AnimEvent) :
    (applyAnimEvent s e).position = s.position := by
  cases e <;> rfl

/-- Folding jump-animation events never changes the position. -/
theorem foldl_applyAnimEvent_position (evs : List AnimEvent) :
    ∀ s : SkierState, (evs.foldl applyAnimEvent s).position = s.position := by
  induction evs with
  | nil => intro s; rfl
  | cons e evs2 ih =>
    intro s
    rw [List.foldl_cons, ih, applyAnimEvent_position]

/-- Advancing the jump animation never changes the position. -/
theorem animateJump_position (t : Int) (s : SkierState) :
    (animateJump t s).position = s.position := by
  unfold animateJump
  rw [foldl_applyAnimEvent_position]

end SkierState

/-- Claim C7: `update` changes the position only in the Skiing or Jumping
states, and then by exactly the direction-determined delta: Down adds the
speed to y; LeftDown subtracts the diagonal-reduced speed from x and adds it
to y; RightDown adds it to both; fully Left and fully Right produce no
per-tick displacement; in the Crashed or Dead state `update` changes nothing
at all. -/
theorem C7_update_movement (env : Env) (t : Int) (s : SkierState) :
    (SkierState.isMoving s = false → SkierState.update env t s = s) ∧
    ((s.state = STATES.STATE_CRASHED ∨ s.state = STATES.STATE_DEAD) →
      SkierState.update env t s = s) ∧
    (SkierState.isMoving s = true →
      (s.direction = DIRECTION_DOWN →
        (SkierState.update env t s).position.x = s.position.x ∧
        (SkierState.update env t s).position.y = s.position.y + s.speed) ∧
      (s.direction = DIRECTION_LEFT_DOWN →
        (SkierState.update env t s).position.x
            = s.position.x - s.speed / DIAGONAL_SPEED_REDUCER ∧
        (SkierState.update env t s).position.y
            = s.position.y + s.speed / DIAGONAL_SPEED_REDUCER) ∧
      (s.direction = DIRECTION_RIGHT_DOWN →
        (SkierState.update env t s).position.x
            = s.position.x + s.speed / DIAGONAL_SPEED_REDUCER ∧
        (SkierState.update env t s).position.y
            = s.position.y + s.speed / DIAGONAL_SPEED_REDUCER) ∧
      ((s.direction = DIRECTION_LEFT ∨ s.direction = DIRECTION_RIGHT) →
        (SkierState.update env t s).position = s.position)) := by
  have hnm : SkierState.isMoving s = false → SkierState.update env t s = s := by
    intro h
    simp [SkierState.update, h]
  refine ⟨hnm, ?_, ?_⟩
  · intro h
    apply hnm
    rcases h with h | h <;> simp [SkierState.isMoving, h]
  · intro hm
    have hpos : (SkierState.update env t s).position = (SkierState.move s).position := by
      unfold SkierState.update
      rw [hm]
      simp only [if_true]
      split
      · rw [SkierState.animateJump_position, SkierState.checkIntersection_position]
      · rw [SkierState.checkIntersection_position]
    refine ⟨?_, ?_, ?_, ?_⟩
    · intro hd
      rw [hpos]
      simp [SkierState.move, hd, SkierState.moveSkierDown, DIRECTION_DOWN,
        DIRECTION_LEFT_DOWN]
    · intro hd
      rw [hpos]
      simp [SkierState.move, hd, SkierState.moveSkierLeftDown, DIRECTION_LEFT_DOWN]
    · intro hd
      rw [hpos]
      simp [SkierState.move, hd, SkierState.moveSkierRightDown, DIRECTION_DOWN,
        DIRECTION_LEFT_DOWN, DIRECTION_RIGHT_DOWN]
    · intro hd
      rw [hpos]
      rcases hd with hd | hd <;>
        simp [SkierState.move, hd, DIRECTION_LEFT, DIRECTION_RIGHT,
          DIRECTION_LEFT_DOWN, DIRECTION_DOWN, DIRECTION_RIGHT_DOWN]

/-- Claim C7, witness: a freshly constructed skier (Skiing, facing Down)
moves down by its speed on a tick; a dead skier is unchanged by a tick. -/
theorem C7_update_movement_witness :
    (SkierState.update ⟨fun _ => none, []⟩ 0 (SkierState.mk0 0 0 0)).position.y
        = (SkierState.mk0 0 0 0).position.y + (SkierState.mk0 0 0 0).speed ∧
    SkierState.update ⟨fun _ => none, []⟩ 0
        (SkierState.die (SkierState.mk0 0 0 0))
      = SkierState.die (SkierState.mk0 0 0 0) := by
  constructor
  · exact (((C7_update_movement ⟨fun _ => none, []⟩ 0
      (SkierState.mk0 0 0 0)).2.2 (by decide)).1 rfl).2
  · exact (C7_update_movement ⟨fun _ => none, []⟩ 0
      (SkierState.die (SkierState.mk0 0 0 0))).2.1 (Or.inr rfl)

/-- Claim C9: when the skier's current sprite image is not resolvable,
`getBounds` returns `none` rather than failing, and the collision check
leaves the skier entirely unchanged for that tick. -/
theorem C9_missing_image_skips_collision (env : Env) (s : SkierState)
    (n : IMAGE_NAMES) (h1 : s.imageName = some n)
    (h2 : env.getImage n = none) :
    SkierState.getBounds env s = none ∧
    SkierState.checkIntersection env s = s := by
  have hb : SkierState.getBounds env s = none := by
    unfold SkierState.getBounds
    simp only [h1, h2]
  refine ⟨hb, ?_⟩
  unfold SkierState.checkIntersection
  simp only [hb]

/-- Claim C9, witness: with an image resolver that resolves nothing, the
freshly constructed skier has no bounds and collision checking is a no-op. -/
theorem C9_missing_image_skips_collision_witness :
    SkierState.getBounds ⟨fun _ => none, []⟩ (SkierState.mk0 0 0 0) = none ∧
    SkierState.checkIntersection ⟨fun _ => none, []⟩ (SkierState.mk0 0 0 0)
      = SkierState.mk0 0 0 0 :=
  C9_missing_image_skips_collision ⟨fun _ => none, []⟩ (SkierState.mk0 0 0 0)
    SKIER_DOWN rfl rfl

/-- Claim C10: `canNotJump` does not consider the Dead state, so calling
`jump` directly on a dead skier facing LeftDown, Down or RightDown
transitions the state from Dead to Jumping, with the speed left at 0. -/
theorem C10_jump_ignores_dead (s : SkierState)
    (h : s.direction = DIRECTION_LEFT_DOWN ∨ s.direction = DIRECTION_DOWN ∨
      s.direction = DIRECTION_RIGHT_DOWN) :
    SkierState.canNotJump (SkierState.die s) = false ∧
    (SkierState.jump (SkierState.die s)).state = STATES.STATE_JUMPING ∧
    (SkierState.jump (SkierState.die s)).speed = 0 := by
  have hcnj : SkierState.canNotJump (SkierState.die s) = false := by
    rcases h with h | h | h <;>
      simp [SkierState.canNotJump, SkierState.isJumping, SkierState.isCrashed,
        SkierState.die, h, DIRECTION_LEFT, DIRECTION_RIGHT, DIRECTION_LEFT_DOWN,
        DIRECTION_DOWN, DIRECTION_RIGHT_DOWN]
  have hj : SkierState.jump (SkierState.die s)
      = { SkierState.die s with state := STATES.STATE_JUMPING } := by
    simp [SkierState.jump, hcnj]
  refine ⟨hcnj, ?_, ?_⟩
  · rw [hj]
  · rw [hj]
    simp [SkierState.die]

namespace SkierState

/-- The direction is an integer in the range [0, 4]. -/
def DirectionInRange (s : SkierState) : Prop :=
  0 ≤ s.direction ∧ s.direction ≤ 4

/-- While Skiing, the sprite matches the current direction. -/
def ImageConsistent (s : SkierState) : Prop :=
  s.state = STATES.STATE_SKIING → s.imageName = DIRECTION_IMAGES s.direction

/-- The combined skier invariant of claim C8. -/
def Inv (s : SkierState) : Prop :=
  DirectionInRange s ∧ ImageConsistent s

/-- The invariant holds for a freshly constructed skier. -/
theorem Inv_mk0 (x y : Rat) (t0 : Int) : Inv (mk0 x y t0) :=
  ⟨by constructor <;> simp [mk0, DIRECTION_DOWN], fun _ => rfl⟩

/-- The function `setDirection` establishes the invariant for an in-range direction. -/
theorem Inv_setDirection (s : SkierState) (d : Int) (h0 : 0 ≤ d) (h4 : d ≤ 4) :
    Inv (setDirection d s) := by
  refine ⟨⟨?_, ?_⟩, ?_⟩
  · simpa [setDirection, setDirectionalImage] using h0
  · simpa [setDirection, setDirectionalImage] using h4
  · intro _
    rfl

/-- A position-only change preserves the invariant. -/
theorem Inv_moveSkierLeft (s : SkierState) (h : Inv s) : Inv (moveSkierLeft s) := by
  simpa [Inv, DirectionInRange, ImageConsistent, moveSkierLeft] using h

/-- A position-only change preserves the invariant. -/
theorem Inv_moveSkierRight (s : SkierState) (h : Inv s) : Inv (moveSkierRight s) := by
  simpa [Inv, DirectionInRange, ImageConsistent, moveSkierRight] using h

/-- A position-only change preserves the invariant. -/
theorem Inv_moveSkierUp (s : SkierState) (h : Inv s) : Inv (moveSkierUp s) := by
  simpa [Inv, DirectionInRange, ImageConsistent, moveSkierUp] using h

/-- Per-frame movement preserves the invariant. -/
theorem Inv_move (s : SkierState) (h : Inv s) : Inv (move s) := by
  unfold move
  split_ifs <;>
    simpa [Inv, DirectionInRange, ImageConsistent, moveSkierLeftDown,
      moveSkierDown, moveSkierRightDown] using h

/-- The function `recoverFromCrash` to an in-range direction establishes the invariant. -/
theorem Inv_recoverFromCrash (s : SkierState) (d : Int) (h0 : 0 ≤ d)
    (h4 : d ≤ 4) : Inv (recoverFromCrash d s) :=
  Inv_setDirection _ d h0 h4

/-- The function `turnLeft` preserves the invariant. -/
theorem Inv_turnLeft (s : SkierState) (h : Inv s) : Inv (turnLeft s) := by
  unfold turnLeft
  by_cases hc : isCrashed s
  · have hrec : (recoverFromCrash DIRECTION_LEFT s).direction = DIRECTION_LEFT := by
      simp [recoverFromCrash, setDirection, setDirectionalImage]
    simp only [hc, if_true, hrec, if_pos rfl]
    exact Inv_moveSkierLeft _
      (Inv_recoverFromCrash s DIRECTION_LEFT (by norm_num [DIRECTION_LEFT])
        (by norm_num [DIRECTION_LEFT]))
  · simp only [hc, if_false, Bool.false_eq_true]
    by_cases hd : s.direction = DIRECTION_LEFT
    · simp only [hd, if_pos rfl]
      exact Inv_moveSkierLeft _ h
    · rw [if_neg hd]
      refine Inv_setDirection _ _ ?_ ?_
      · have := h.1
        simp only [DirectionInRange] at this
        simp only [DIRECTION_LEFT] at hd
        omega
      · have := h.1
        simp only [DirectionInRange] at this
        omega

/-- The function `turnRight` preserves the invariant. -/
theorem Inv_turnRight (s : SkierState) (h : Inv s) : Inv (turnRight s) := by
  unfold turnRight
  by_cases hc : isCrashed s
  · have hrec : (recoverFromCrash DIRECTION_RIGHT s).direction = DIRECTION_RIGHT := by
      simp [recoverFromCrash, setDirection, setDirectionalImage]
    simp only [hc, if_true, hrec, if_pos rfl]
    exact Inv_moveSkierRight _
      (Inv_recoverFromCrash s DIRECTION_RIGHT (by norm_num [DIRECTION_RIGHT])
        (by norm_num [DIRECTION_RIGHT]))
  · simp only [hc, if_false, Bool.false_eq_true]
    by_cases hd : s.direction = DIRECTION_RIGHT
    · simp only [hd, if_pos rfl]
      exact Inv_moveSkierRight _ h
    · rw [if_neg hd]
      refine Inv_setDirection _ _ ?_ ?_
      · have := h.1
        simp only [DirectionInRange] at this
        omega
      · have := h.1
        simp only [DirectionInRange] at this
        simp only [DIRECTION_RIGHT] at hd
        omega

/-- The function `turnUp` preserves the invariant. -/
theorem Inv_turnUp (s : SkierState) (h : Inv s) : Inv (turnUp s) := by
  unfold turnUp
  split_ifs <;> exact h

/-- The function `turnDown` preserves the invariant. -/
theorem Inv_turnDown (s : SkierState) (h : Inv s) : Inv (turnDown s) := by
  unfold turnDown
  split_ifs
  · exact h
  · exact Inv_setDirection _ _ (by norm_num [DIRECTION_DOWN])
      (by norm_num [DIRECTION_DOWN])

/-- The function `jump` preserves the invariant (the consistency requirement is suspended
while Jumping). -/
theorem Inv_jump (s : SkierState) (h : Inv s) : Inv (jump s) := by
  unfold jump
  split_ifs
  · exact h
  · exact ⟨h.1, fun hst => by cases hst⟩

/-- The function `land` restores the directional sprite, so the invariant holds. -/
theorem Inv_land (s : SkierState) (h : Inv s) : Inv (land s) :=
  ⟨h.1, fun _ => rfl⟩

/-- The function `crash` preserves the invariant (consistency suspended while Crashed). -/
theorem Inv_crash (s : SkierState) (h : Inv s) : Inv (crash s) := by
  unfold crash
  by_cases hj : isJumping s <;>
    simp only [hj, if_true, if_false, Bool.false_eq_true] <;>
    exact ⟨h.1, fun hst => by cases hst⟩

/-- The function `intersectionAction` preserves the invariant. -/
theorem Inv_intersectionAction (o : Obstacle) (s : SkierState) (h : Inv s) :
    Inv (intersectionAction o s) := by
  cases ho : o.imageName <;> simp only [intersectionAction, ho] <;>
    first
      | exact Inv_jump _ h
      | exact Inv_crash _ h
      | (split_ifs <;> first | exact h | exact Inv_crash _ h)

/-- The function `checkIntersection` preserves the invariant. -/
theorem Inv_checkIntersection (env : Env) (s : SkierState) (h : Inv s) :
    Inv (checkIntersection env s) := by
  unfold checkIntersection
  rcases hb : getBounds env s with _ | sb
  · simpa only [hb] using h
  · simp only [hb]
    rcases hf : env.obstacles.find? (obstacleIntersects sb) with _ | o
    · simpa only [hf] using h
    · simp only [hf]
      exact Inv_intersectionAction o s h

/-- An `animate` call emits at most one event. -/
theorem animate_events_length (t : Int) (a : AnimState) :
    ((a.animate t).2).length ≤ 1 := by
  unfold AnimState.animate
  split_ifs with h1
  · unfold AnimState.nextAnimationFrame AnimState.finishAnimation
    dsimp only
    split_ifs <;> simp
  · simp

/-- Applying a single jump-animation event to a jumping skier preserves the
invariant. -/
theorem Inv_applyAnimEvent (s : SkierState) (e : AnimEvent)
    (hst : s.state = STATES.STATE_JUMPING) (h : Inv s) :
    Inv (applyAnimEvent s e) := by
  cases e with
  | frame img =>
    exact ⟨h.1, fun hc => by rw [applyAnimEvent, setImageName] at hc; simp at hc; rw [hst] at hc; cases hc⟩
  | complete => exact Inv_land _ h

/-- Advancing the jump animation of a jumping skier preserves the
invariant. -/
theorem Inv_animateJump (t : Int) (s : SkierState)
    (hst : s.state = STATES.STATE_JUMPING) (h : Inv s) :
    Inv (animateJump t s) := by
  unfold animateJump
  have hlen := animate_events_length t s.jumpAnimation
  have hInv1 : Inv { s with jumpAnimation := (s.jumpAnimation.animate t).1 } := by
    simpa [Inv, DirectionInRange, ImageConsistent] using h
  rcases hl : (s.jumpAnimation.animate t).2 with _ | ⟨e, rest⟩
  · simpa only [hl, List.foldl_nil] using hInv1
  · rw [hl] at hlen
    cases rest with
    | cons e2 rest2 => simp at hlen
    | nil =>
      simp only [hl, List.foldl_cons, List.foldl_nil]
      exact Inv_applyAnimEvent _ e hst hInv1

/-- The function `handleInput` preserves the invariant. -/
theorem Inv_handleInput (k : KEYS) (s : SkierState) (h : Inv s) :
    Inv (handleInput k s).2 := by
  unfold handleInput
  by_cases hdj : (isDead s || isJumping s) = true
  · simp only [hdj, if_true]
    exact h
  · simp only [hdj, if_false, Bool.false_eq_true]
    cases k
    · exact Inv_turnLeft _ h
    · exact Inv_turnRight _ h
    · exact Inv_turnUp _ h
    · exact Inv_turnDown _ h
    · exact Inv_jump _ h
    · exact h

/-- The function `update` preserves the invariant. -/
theorem Inv_update (env : Env) (t : Int) (s : SkierState) (h : Inv s) :
    Inv (update env t s) := by
  unfold update
  by_cases hm : isMoving s = true
  · simp only [hm, if_true]
    have h2 : Inv (checkIntersection env (move s)) :=
      Inv_checkIntersection env _ (Inv_move _ h)
    split_ifs with hj
    · exact Inv_animateJump t _ (by simpa [isJumping] using hj) h2
    · exact h2
  · simp only [hm, if_false, Bool.false_eq_true]
    exact h

/-- The function `step` preserves the invariant. -/
theorem Inv_step (env : Env) (s : SkierState) (e : Event) (h : Inv s) :
    Inv (step env s e) := by
  cases e with
  | input k => exact Inv_handleInput k s h
  | tick t => exact Inv_update env t s h

/-- The function `run` preserves the invariant. -/
theorem Inv_run (env : Env) (evs : List Event) :
    ∀ s : SkierState, Inv s → Inv (run env s evs) := by
  induction evs with
  | nil => intro s h; exact h
  | cons e evs2 ih =>
    intro s h
    exact ih (step env s e) (Inv_step env s e h)

end SkierState

/-- Claim C8: starting from the initial state (Skiing, facing Down), after
any sequence of `handleInput` and `update` calls the skier's direction is an
integer in [0, 4], and whenever the state is Skiing the sprite equals the
directional image for the current direction (the consistency requirement is
suspended while Crashed, Jumping or Dead). -/
theorem C8_direction_image_invariant (env : Env) (x y : Rat) (t0 : Int)
    (evs : List SkierState.Event) :
    (0 ≤ (SkierState.run env (SkierState.mk0 x y t0) evs).direction ∧
      (SkierState.run env (SkierState.mk0 x y t0) evs).direction ≤ 4) ∧
    ((SkierState.run env (SkierState.mk0 x y t0) evs).state
        = STATES.STATE_SKIING →
      (SkierState.run env (SkierState.mk0 x y t0) evs).imageName
        = DIRECTION_IMAGES
            (SkierState.run env (SkierState.mk0 x y t0) evs).direction) :=
  SkierState.Inv_run env evs (SkierState.mk0 x y t0)
    (SkierState.Inv_mk0 x y t0)

/-- Claim C8, witness: after one Left input from the initial state the skier
is Skiing and its sprite matches its direction. -/
theorem C8_direction_image_invariant_witness :
    (SkierState.run ⟨fun _ => none, []⟩ (SkierState.mk0 0 0 0)
        [SkierState.Event.input KEYS.LEFT]).imageName
      = DIRECTION_IMAGES
          (SkierState.run ⟨fun _ => none, []⟩ (SkierState.mk0 0 0 0)
            [SkierState.Event.input KEYS.LEFT]).direction :=
  (C8_direction_image_invariant ⟨fun _ => none, []⟩ 0 0 0
    [SkierState.Event.input KEYS.LEFT]).2 (by decide)

/-- Claim C10, witness: killing a freshly constructed skier (facing Down) and
then calling `jump` directly puts it into the Jumping state at speed 0. -/
theorem C10_jump_ignores_dead_witness :
    (SkierState.jump (SkierState.die (SkierState.mk0 0 0 0))).state
        = STATES.STATE_JUMPING ∧
    (SkierState.jump (SkierState.die (SkierState.mk0 0 0 0))).speed = 0 :=
  ⟨(C10_jump_ignores_dead (SkierState.mk0 0 0 0) (Or.inr (Or.inl rfl))).2.1,
   (C10_jump_ignores_dead (SkierState.mk0 0 0 0) (Or.inr (Or.inl rfl))).2.2⟩

end SkiFree
